import Mathlib

/-!
Verification of the F&B ROI simulation engine (`src/app.py`).

The engine is a pair of pure functions over real-valued quantities:
`calculate_monthly_pnl` (monthly P&L calculator) and `process_state`
(cash/debt state advancer), iterated by a 12-month display loop and a
240-month payback-period search.  We embed the arithmetic in `ℚ`;
The Python `round(x, 2)` builtin is modelled as round-half-to-even at cents, and
the Python `int()` builtin as truncation toward zero.
-/

/-- Round-half-to-even to the nearest integer, the default rounding rule
of the Python builtin `round`. -/
def roundHalfEven (q : ℚ) : ℤ :=
  let f : ℤ := ⌊q⌋
  if q - f < 1/2 then f
  else if 1/2 < q - f then f + 1
  else if f % 2 = 0 then f else f + 1

/-- Model of `round(x, 2)` from the source: round to 2 decimal places. -/
def round2 (q : ℚ) : ℚ := (roundHalfEven (q * 100) : ℚ) / 100

/-- Python `int()` applied to a non-negative-or-negative rational:
truncation toward zero. -/
def truncQ (q : ℚ) : ℤ := if 0 ≤ q then ⌊q⌋ else ⌈q⌉

/-- The `config` dictionary built in the sidebar of `app.py`. -/
structure BusinessConfig where
  capital : ℚ
  fixed_costs : ℚ
  max_daily_capacity : ℚ
  operating_days : ℚ
  arpu_base : ℚ
  cogs_base_pct : ℚ
  repayment_percentage : ℚ

/-- One entry of `SCENARIO_MODIFIERS` in `app.py`. -/
structure ScenarioModifiers where
  vol : ℚ
  fixed : ℚ
  cogs_adj : ℚ

def AS_IS : ScenarioModifiers := ⟨1, 1, 0⟩
def STRESS : ScenarioModifiers := ⟨4/5, 11/10, 0⟩
def BLUE_SKY : ScenarioModifiers := ⟨1, 1, -1/10⟩
def REALITY : ScenarioModifiers := ⟨3/4, 1, 0⟩

/-- Return value of `calculate_monthly_pnl`. -/
structure Pnl where
  vol : ℚ
  rev : ℚ
  prof : ℚ

/-- Translation of `calculate_monthly_pnl(c, mods, s_index)` from `app.py` lines 24-31. -/
def calculate_monthly_pnl (c : BusinessConfig) (mods : ScenarioModifiers)
    (s_index : ℚ) : Pnl :=
  let max_vol := c.max_daily_capacity * c.operating_days
  let vol := max 0 (min (max_vol * mods.vol * s_index) max_vol)
  let fixed := c.fixed_costs * mods.fixed
  let cogs_pct := c.cogs_base_pct + mods.cogs_adj
  let rev := vol * c.arpu_base
  let prof := rev - (fixed + rev * cogs_pct)
  ⟨vol, rev, prof⟩

/-- Translation of `process_state(prof, cash_bal, debt_rem, repay_pct)` from `app.py`
lines 33-43.  Returns `(m_repay, new_debt, new_cash)`. -/
def process_state (prof cash_bal debt_rem repay_pct : ℚ) : ℚ × ℚ × ℚ :=
  let m_repay : ℚ :=
    if 0 < prof ∧ 0 < debt_rem then
      let available_cash := cash_bal + prof
      if 0 < available_cash then
        let potential_repay := prof * repay_pct
        max 0 (min potential_repay (min debt_rem available_cash))
      else 0
    else 0
  let new_debt := debt_rem - m_repay
  let new_cash := round2 (cash_bal + (prof - m_repay))
  (m_repay, new_debt, new_cash)

/-- Simulation state threaded through the month loop: `(debt, cash)`. -/
structure SimState where
  debt : ℚ
  cash : ℚ

/-- One month of the driver loop: look up the seasonal index at
`(m-1) % 12`, call the calculator, then the advancer.  Returns the
repayment of the month together with the new state.  Mirrors `app.py`
lines 85-88 (display loop body) and 105-108 (payback loop body). -/
def stepMonth (cfg : BusinessConfig) (mods : ScenarioModifiers)
    (idx : List ℚ) (m : ℕ) (st : SimState) : ℚ × SimState :=
  let s := idx.getD ((m - 1) % 12) 0
  let pnl := calculate_monthly_pnl cfg mods s
  let r := process_state pnl.prof st.cash st.debt cfg.repayment_percentage
  (r.1, ⟨r.2.1, r.2.2⟩)

/-- State after `n` month-advance calls, starting from the fresh state
`debt = capital`, `cash = 0` (as both loops in `app.py` do). -/
def stateAfter (cfg : BusinessConfig) (mods : ScenarioModifiers)
    (idx : List ℚ) : ℕ → SimState
  | 0 => ⟨cfg.capital, 0⟩
  | n + 1 => (stepMonth cfg mods idx (n + 1) (stateAfter cfg mods idx n)).2

/-- Repayment paid in month `m` (for `m ≥ 1`) of a run. -/
def repayAt (cfg : BusinessConfig) (mods : ScenarioModifiers)
    (idx : List ℚ) (m : ℕ) : ℚ :=
  (stepMonth cfg mods idx m (stateAfter cfg mods idx (m - 1))).1

/-- The record appended to `history` for month `m` in the display loop
(`app.py` lines 90-98); the month-name label is omitted. -/
structure MonthlyResult where
  pax : ℤ
  revenue : ℚ
  net_profit : ℚ
  monthly_repay : ℚ
  total_repaid : ℚ
  cash_in_hand : ℚ

/-- The `history` entry for month `m`: computed from the state after
`m - 1` months, recording `int(vol)` for "Sales (Pax)" and
`capital - debt` (after the update) for "Total Repaid". -/
def monthEntry (cfg : BusinessConfig) (mods : ScenarioModifiers)
    (idx : List ℚ) (m : ℕ) : MonthlyResult :=
  let s := idx.getD ((m - 1) % 12) 0
  let pnl := calculate_monthly_pnl cfg mods s
  let st := stateAfter cfg mods idx (m - 1)
  let r := process_state pnl.prof st.cash st.debt cfg.repayment_percentage
  { pax := truncQ pnl.vol
    revenue := pnl.rev
    net_profit := pnl.prof
    monthly_repay := r.1
    total_repaid := cfg.capital - r.2.1
    cash_in_hand := r.2.2 }

/-- The payback ("ROI") loop of `app.py` lines 102-111: starting at
month `m` with state `st` and `fuel` iterations left, advance one month
and stop at the first month whose new debt is `≤ 0`. -/
def paybackAux (cfg : BusinessConfig) (mods : ScenarioModifiers)
    (idx : List ℚ) : ℕ → ℕ → SimState → Option ℕ
  | 0, _, _ => none
  | fuel + 1, m, st =>
    let r := stepMonth cfg mods idx m st
    if r.2.debt ≤ 0 then some m
    else paybackAux cfg mods idx fuel (m + 1) r.2

/-- The payback-period search: a fresh state (`debt = capital`,
`cash = 0`) iterated over months 1..240; `none` models the
`"UNVIABLE"` sentinel. -/
def paybackSearch (cfg : BusinessConfig) (mods : ScenarioModifiers)
    (idx : List ℚ) : Option ℕ :=
  paybackAux cfg mods idx 240 1 ⟨cfg.capital, 0⟩

/-! ## Small facts about the advancer, shared by several claims -/

/-- The repayment component of `process_state`, written out. -/
lemma process_state_fst (prof cash_bal debt_rem repay_pct : ℚ) :
    (process_state prof cash_bal debt_rem repay_pct).1 =
      if 0 < prof ∧ 0 < debt_rem then
        if 0 < cash_bal + prof then
          max 0 (min (prof * repay_pct) (min debt_rem (cash_bal + prof)))
        else 0
      else 0 := rfl

/-- The new-debt component of `process_state`. -/
lemma process_state_debt (prof cash_bal debt_rem repay_pct : ℚ) :
    (process_state prof cash_bal debt_rem repay_pct).2.1 =
      debt_rem - (process_state prof cash_bal debt_rem repay_pct).1 := rfl

/-- The new-cash component of `process_state`. -/
lemma process_state_cash (prof cash_bal debt_rem repay_pct : ℚ) :
    (process_state prof cash_bal debt_rem repay_pct).2.2 =
      round2 (cash_bal + (prof - (process_state prof cash_bal debt_rem repay_pct).1)) := rfl

/-- The repayment is always non-negative. -/
lemma repay_nonneg (prof cash_bal debt_rem repay_pct : ℚ) :
    0 ≤ (process_state prof cash_bal debt_rem repay_pct).1 := by
  rw [process_state_fst]
  split
  · split
    · exact le_max_left 0 _
    · exact le_refl 0
  · exact le_refl 0

/-- The repayment never exceeds a non-negative starting debt. -/
lemma repay_le_debt (prof cash_bal debt_rem repay_pct : ℚ)
    (hd : 0 ≤ debt_rem) :
    (process_state prof cash_bal debt_rem repay_pct).1 ≤ debt_rem := by
  rw [process_state_fst]
  split
  · split
    · exact max_le hd (le_trans (min_le_right _ _) (min_le_left _ _))
    · exact hd
  · exact hd

/-- Outside the eligible case the repayment is zero. -/
lemma repay_eq_zero_of_not_eligible (prof cash_bal debt_rem repay_pct : ℚ)
    (h : ¬(0 < prof ∧ 0 < debt_rem ∧ 0 < cash_bal + prof)) :
    (process_state prof cash_bal debt_rem repay_pct).1 = 0 := by
  rw [process_state_fst]
  split
  · rename_i h1
    split
    · rename_i h2
      exact absurd ⟨h1.1, h1.2, h2⟩ h
    · rfl
  · rfl

/-- C1: the advancer pays a repayment only when `profit > 0`,
`debt_remaining > 0` and `cash_balance + profit > 0`; in that eligible
case the repayment is `clamp(profit * repay_fraction, 0,
min(debt_remaining, cash_balance + profit))`, hence at most the debt and
at most the available cash; in every other case the repayment is `0`,
the debt passes through unchanged and the cash absorbs the profit; in
particular the repayment is `0` whenever `profit ≤ 0`. -/
theorem C1_repayment_rule (prof cash_bal debt_rem repay_pct : ℚ) :
    ((0 < prof ∧ 0 < debt_rem ∧ 0 < cash_bal + prof) →
      ((process_state prof cash_bal debt_rem repay_pct).1 =
          max 0 (min (prof * repay_pct) (min debt_rem (cash_bal + prof))) ∧
        (process_state prof cash_bal debt_rem repay_pct).1 ≤ debt_rem ∧
        (process_state prof cash_bal debt_rem repay_pct).1 ≤ cash_bal + prof)) ∧
    (¬(0 < prof ∧ 0 < debt_rem ∧ 0 < cash_bal + prof) →
      ((process_state prof cash_bal debt_rem repay_pct).1 = 0 ∧
        (process_state prof cash_bal debt_rem repay_pct).2.1 = debt_rem ∧
        (process_state prof cash_bal debt_rem repay_pct).2.2 =
          round2 (cash_bal + prof))) ∧
    (prof ≤ 0 → (process_state prof cash_bal debt_rem repay_pct).1 = 0) := by
  refine ⟨?_, ?_, ?_⟩
  · rintro ⟨hp, hd, ha⟩
    refine ⟨?_, repay_le_debt _ _ _ _ hd.le, ?_⟩
    · rw [process_state_fst, if_pos ⟨hp, hd⟩, if_pos ha]
    · rw [process_state_fst, if_pos ⟨hp, hd⟩, if_pos ha]
      exact max_le ha.le (le_trans (min_le_right _ _) (min_le_right _ _))
  · intro h
    have hz := repay_eq_zero_of_not_eligible prof cash_bal debt_rem repay_pct h
    refine ⟨hz, ?_, ?_⟩
    · rw [process_state_debt, hz, sub_zero]
    · rw [process_state_cash, hz, sub_zero]
  · intro hp
    exact repay_eq_zero_of_not_eligible _ _ _ _ (fun h => absurd h.1 (not_lt.mpr hp))

/-- Witness for C1 at a concrete eligible input and a concrete
ineligible one. -/
theorem C1_repayment_rule_witness :
    (process_state 2 0 5 1).1 = max 0 (min (2 * 1) (min 5 (0 + 2))) ∧
      (process_state (-3) 0 5 1).1 = 0 :=
  ⟨((C1_repayment_rule 2 0 5 1).1 (by norm_num)).1,
    (C1_repayment_rule (-3) 0 5 1).2.2 (by norm_num)⟩

/-- C2: the monthly P&L calculator returns
`volume = clamp(max_vol * vol_mult * s_index, 0, max_vol)`,
`revenue = volume * arpu_base`, and
`profit = revenue - (fixed_costs * fixed_mult + revenue * (cogs_base_pct
+ cogs_adj))`, with no clamping of the effective COGS percentage. -/
theorem C2_pnl_formulas (c : BusinessConfig) (mods : ScenarioModifiers)
    (s_index : ℚ) :
    (calculate_monthly_pnl c mods s_index).vol =
      max 0 (min (c.max_daily_capacity * c.operating_days * mods.vol * s_index)
        (c.max_daily_capacity * c.operating_days)) ∧
    (calculate_monthly_pnl c mods s_index).rev =
      (calculate_monthly_pnl c mods s_index).vol * c.arpu_base ∧
    (calculate_monthly_pnl c mods s_index).prof =
      (calculate_monthly_pnl c mods s_index).rev -
        (c.fixed_costs * mods.fixed +
          (calculate_monthly_pnl c mods s_index).rev *
            (c.cogs_base_pct + mods.cogs_adj)) :=
  ⟨rfl, rfl, rfl⟩

/-- C4: with positive capacity and operating days, the computed sales
volume lies in `[0, max_daily_capacity * operating_days]` for every
modifier and every seasonal index. -/
theorem C4_volume_clamp (c : BusinessConfig) (mods : ScenarioModifiers)
    (s_index : ℚ) (hcap : 0 < c.max_daily_capacity)
    (hdays : 0 < c.operating_days) :
    0 ≤ (calculate_monthly_pnl c mods s_index).vol ∧
      (calculate_monthly_pnl c mods s_index).vol ≤
        c.max_daily_capacity * c.operating_days := by
  constructor
  · exact le_max_left 0 _
  · exact max_le (mul_pos hcap hdays).le (min_le_right _ _)

/-- Witness for C4 with a huge seasonal index. -/
theorem C4_volume_clamp_witness :
    0 ≤ (calculate_monthly_pnl ⟨20000, 4000, 100, 26, 89/10, 1/2, 1⟩
        AS_IS 1000).vol ∧
      (calculate_monthly_pnl ⟨20000, 4000, 100, 26, 89/10, 1/2, 1⟩
        AS_IS 1000).vol ≤ 100 * 26 :=
  C4_volume_clamp ⟨20000, 4000, 100, 26, 89/10, 1/2, 1⟩ AS_IS 1000
    (by norm_num) (by norm_num)

/-- C5: the new cash balance is exactly `round(cash_balance + profit -
repayment, 2)` — rounding applied once — and no floor is applied: the
result can be negative. -/
theorem C5_cash_conservation :
    (∀ prof cash_bal debt_rem repay_pct : ℚ,
      (process_state prof cash_bal debt_rem repay_pct).2.2 =
        round2 (cash_bal + prof -
          (process_state prof cash_bal debt_rem repay_pct).1)) ∧
    (process_state (-5) 0 10 1).2.2 < 0 := by
  constructor
  · intro prof cash_bal debt_rem repay_pct
    rw [process_state_cash]
    congr 1
    ring
  · norm_num [process_state, round2, roundHalfEven]

/-! ## Iteration facts shared by the loop claims -/

/-- The debt component of one driver step. -/
lemma stepMonth_debt (cfg : BusinessConfig) (mods : ScenarioModifiers)
    (idx : List ℚ) (m : ℕ) (st : SimState) :
    (stepMonth cfg mods idx m st).2.debt =
      st.debt - (stepMonth cfg mods idx m st).1 := by
  exact process_state_debt _ _ _ _

/-- For `m ≥ 1`, stepping the state after `m - 1` months lands on the
state after `m` months. -/
lemma stepMonth_stateAfter (cfg : BusinessConfig) (mods : ScenarioModifiers)
    (idx : List ℚ) (m : ℕ) (hm : 1 ≤ m) :
    (stepMonth cfg mods idx m (stateAfter cfg mods idx (m - 1))).2 =
      stateAfter cfg mods idx m := by
  cases m with
  | zero => omega
  | succ k => rfl

/-- Each step keeps a non-negative debt non-negative and never
increases it. -/
lemma stepMonth_debt_bounds (cfg : BusinessConfig) (mods : ScenarioModifiers)
    (idx : List ℚ) (m : ℕ) (st : SimState) (hd : 0 ≤ st.debt) :
    0 ≤ (stepMonth cfg mods idx m st).2.debt ∧
      (stepMonth cfg mods idx m st).2.debt ≤ st.debt := by
  rw [stepMonth_debt]
  constructor
  · exact sub_nonneg.mpr (repay_le_debt _ _ _ _ hd)
  · exact sub_le_self _ (repay_nonneg _ _ _ _)

/-- With a non-negative starting capital, every state in the run has a
non-negative debt. -/
lemma stateAfter_debt_nonneg (cfg : BusinessConfig) (mods : ScenarioModifiers)
    (idx : List ℚ) (hcap : 0 ≤ cfg.capital) (n : ℕ) :
    0 ≤ (stateAfter cfg mods idx n).debt := by
  induction n with
  | zero => exact hcap
  | succ k ih => exact (stepMonth_debt_bounds cfg mods idx (k + 1) _ ih).1

/-- C3: a single advance call with non-negative debt returns a new debt
in `[0, debt]`; consequently, starting from `debt = capital ≥ 0`, the
debt sequence of the month loop is non-increasing and non-negative at
every iteration. -/
theorem C3_debt_monotone (cfg : BusinessConfig) (mods : ScenarioModifiers)
    (idx : List ℚ) :
    (∀ prof cash_bal debt_rem repay_pct : ℚ, 0 ≤ debt_rem →
      0 ≤ (process_state prof cash_bal debt_rem repay_pct).2.1 ∧
        (process_state prof cash_bal debt_rem repay_pct).2.1 ≤ debt_rem) ∧
    (0 ≤ cfg.capital → ∀ n : ℕ,
      0 ≤ (stateAfter cfg mods idx n).debt ∧
        (stateAfter cfg mods idx (n + 1)).debt ≤
          (stateAfter cfg mods idx n).debt) := by
  constructor
  · intro prof cash_bal debt_rem repay_pct hd
    rw [process_state_debt]
    exact ⟨sub_nonneg.mpr (repay_le_debt _ _ _ _ hd),
      sub_le_self _ (repay_nonneg _ _ _ _)⟩
  · intro hcap n
    refine ⟨stateAfter_debt_nonneg cfg mods idx hcap n, ?_⟩
    exact (stepMonth_debt_bounds cfg mods idx (n + 1) _
      (stateAfter_debt_nonneg cfg mods idx hcap n)).2

/-- The configuration of the worked example in the spec. -/
def exampleCfg : BusinessConfig := ⟨20000, 4000, 100, 26, 89/10, 1/2, 1⟩

/-- The default seasonal index of `app.py`. -/
def exampleIdx : List ℚ :=
  [11/10, 11/10, 1, 7/10, 9/10, 6/5, 1, 1, 4/5, 9/10, 11/10, 6/5]

/-- Witness for C3 at a concrete input. -/
theorem C3_debt_monotone_witness :
    (0 ≤ (process_state 2 0 5 1).2.1 ∧ (process_state 2 0 5 1).2.1 ≤ 5) ∧
      (0 ≤ (stateAfter exampleCfg AS_IS exampleIdx 3).debt ∧
        (stateAfter exampleCfg AS_IS exampleIdx 4).debt ≤
          (stateAfter exampleCfg AS_IS exampleIdx 3).debt) :=
  ⟨(C3_debt_monotone exampleCfg AS_IS exampleIdx).1 2 0 5 1 (by norm_num),
    (C3_debt_monotone exampleCfg AS_IS exampleIdx).2 (by norm_num [exampleCfg]) 3⟩

/-- C6: after any number of advance calls, `capital - debt_remaining`
equals the sum of the repayments made so far, and the
"Total Repaid" field of each history entry records exactly that cumulative sum. -/
theorem C6_total_repaid (cfg : BusinessConfig) (mods : ScenarioModifiers)
    (idx : List ℚ) :
    (∀ n : ℕ, cfg.capital - (stateAfter cfg mods idx n).debt =
      ∑ k ∈ Finset.range n, repayAt cfg mods idx (k + 1)) ∧
    (∀ m : ℕ, 1 ≤ m → (monthEntry cfg mods idx m).total_repaid =
      ∑ k ∈ Finset.range m, repayAt cfg mods idx (k + 1)) := by
  have key : ∀ n : ℕ, cfg.capital - (stateAfter cfg mods idx n).debt =
      ∑ k ∈ Finset.range n, repayAt cfg mods idx (k + 1) := by
    intro n
    induction n with
    | zero => simp [stateAfter]
    | succ k ih =>
      rw [Finset.sum_range_succ, ← ih]
      have hstep := stepMonth_debt cfg mods idx (k + 1)
        (stateAfter cfg mods idx k)
      have : (stateAfter cfg mods idx (k + 1)).debt =
          (stateAfter cfg mods idx k).debt - repayAt cfg mods idx (k + 1) := by
        rw [show stateAfter cfg mods idx (k + 1) =
            (stepMonth cfg mods idx (k + 1) (stateAfter cfg mods idx k)).2 from rfl]
        exact hstep
      rw [this]
      ring
  refine ⟨key, ?_⟩
  intro m hm
  have hentry : (monthEntry cfg mods idx m).total_repaid =
      cfg.capital - (stateAfter cfg mods idx m).debt := by
    cases m with
    | zero => omega
    | succ k => rfl
  rw [hentry, key m]

/-- Witness for C6 at month 1 of the worked example. -/
theorem C6_total_repaid_witness :
    (monthEntry exampleCfg AS_IS exampleIdx 1).total_repaid =
      ∑ k ∈ Finset.range 1, repayAt exampleCfg AS_IS exampleIdx (k + 1) :=
  (C6_total_repaid exampleCfg AS_IS exampleIdx).2 1 (by norm_num)

/-! ## Characterization of the payback search -/

/-- The function `paybackAux` returns `some j` exactly when `j` is the first month in
its window whose debt has reached zero. -/
lemma paybackAux_some_char (cfg : BusinessConfig) (mods : ScenarioModifiers)
    (idx : List ℚ) :
    ∀ (fuel m j : ℕ), 1 ≤ m →
      (paybackAux cfg mods idx fuel m (stateAfter cfg mods idx (m - 1)) = some j ↔
        (m ≤ j ∧ j < m + fuel ∧ (stateAfter cfg mods idx j).debt ≤ 0 ∧
          ∀ k, m ≤ k → k < j → 0 < (stateAfter cfg mods idx k).debt)) := by
  intro fuel
  induction fuel with
  | zero =>
    intro m j hm
    constructor
    · intro h
      exact absurd h (by simp [paybackAux])
    · rintro ⟨h1, h2, -⟩
      omega
  | succ f ih =>
    intro m j hm
    rw [show paybackAux cfg mods idx (f + 1) m (stateAfter cfg mods idx (m - 1)) =
        (if (stepMonth cfg mods idx m (stateAfter cfg mods idx (m - 1))).2.debt ≤ 0
          then some m
          else paybackAux cfg mods idx f (m + 1)
            (stepMonth cfg mods idx m (stateAfter cfg mods idx (m - 1))).2) from rfl]
    rw [stepMonth_stateAfter cfg mods idx m hm]
    by_cases h : (stateAfter cfg mods idx m).debt ≤ 0
    · rw [if_pos h]
      constructor
      · intro hj
        have hmj : m = j := Option.some.inj hj
        subst hmj
        exact ⟨le_rfl, by omega, h, fun k hk1 hk2 => absurd (lt_of_le_of_lt hk1 hk2) (lt_irrefl m)⟩
      · rintro ⟨h1, h2, h3, h4⟩
        rcases Nat.eq_or_lt_of_le h1 with rfl | hlt
        · rfl
        · exact absurd h (not_le.mpr (h4 m le_rfl hlt))
    · rw [if_neg h]
      push_neg at h
      have ih2 := ih (m + 1) j (by omega)
      rw [Nat.add_sub_cancel] at ih2
      rw [ih2]
      constructor
      · rintro ⟨h1, h2, h3, h4⟩
        refine ⟨by omega, by omega, h3, ?_⟩
        intro k hk1 hk2
        rcases Nat.eq_or_lt_of_le hk1 with rfl | hk
        · exact h
        · exact h4 k (by omega) hk2
      · rintro ⟨h1, h2, h3, h4⟩
        have hmj : m ≠ j := by
          intro e
          rw [← e] at h3
          exact absurd h3 (not_le.mpr h)
        exact ⟨by omega, by omega, h3, fun k hk1 hk2 => h4 k (by omega) hk2⟩

/-- The function `paybackAux` returns `none` exactly when the debt stays positive
throughout its window. -/
lemma paybackAux_none_char (cfg : BusinessConfig) (mods : ScenarioModifiers)
    (idx : List ℚ) :
    ∀ (fuel m : ℕ), 1 ≤ m →
      (paybackAux cfg mods idx fuel m (stateAfter cfg mods idx (m - 1)) = none ↔
        ∀ k, m ≤ k → k < m + fuel → 0 < (stateAfter cfg mods idx k).debt) := by
  intro fuel
  induction fuel with
  | zero =>
    intro m hm
    constructor
    · intro _ k hk1 hk2
      omega
    · intro _
      rfl
  | succ f ih =>
    intro m hm
    rw [show paybackAux cfg mods idx (f + 1) m (stateAfter cfg mods idx (m - 1)) =
        (if (stepMonth cfg mods idx m (stateAfter cfg mods idx (m - 1))).2.debt ≤ 0
          then some m
          else paybackAux cfg mods idx f (m + 1)
            (stepMonth cfg mods idx m (stateAfter cfg mods idx (m - 1))).2) from rfl]
    rw [stepMonth_stateAfter cfg mods idx m hm]
    by_cases h : (stateAfter cfg mods idx m).debt ≤ 0
    · rw [if_pos h]
      constructor
      · intro hc
        exact absurd hc (Option.some_ne_none m)
      · intro hall
        exact absurd h (not_le.mpr (hall m le_rfl (by omega)))
    · rw [if_neg h]
      push_neg at h
      have ih2 := ih (m + 1) (by omega)
      rw [Nat.add_sub_cancel] at ih2
      rw [ih2]
      constructor
      · intro hall k hk1 hk2
        rcases Nat.eq_or_lt_of_le hk1 with rfl | hk
        · exact h
        · exact hall k (by omega) (by omega)
      · intro hall k hk1 hk2
        exact hall k (by omega) (by omega)

/-- C7: the payback search runs on its own fresh state (`debt =
capital`, `cash = 0`, embodied in `paybackSearch`/`stateAfter`,
independent of the display loop), steps Calculator-then-Advancer with
the cyclic seasonal lookup, and returns `some m` exactly for the first
month `m ∈ [1, 240]` whose debt is `≤ 0`, or `none` ("UNVIABLE") when
no month in `[1, 240]` reaches debt `≤ 0`. -/
theorem C7_payback_characterization (cfg : BusinessConfig)
    (mods : ScenarioModifiers) (idx : List ℚ) :
    (∀ m : ℕ, paybackSearch cfg mods idx = some m ↔
      (1 ≤ m ∧ m ≤ 240 ∧ (stateAfter cfg mods idx m).debt ≤ 0 ∧
        ∀ k, 1 ≤ k → k < m → 0 < (stateAfter cfg mods idx k).debt)) ∧
    (paybackSearch cfg mods idx = none ↔
      ∀ m, 1 ≤ m → m ≤ 240 → 0 < (stateAfter cfg mods idx m).debt) := by
  have hrw : paybackSearch cfg mods idx =
      paybackAux cfg mods idx 240 1 (stateAfter cfg mods idx (1 - 1)) := rfl
  constructor
  · intro m
    rw [hrw, paybackAux_some_char cfg mods idx 240 1 m le_rfl]
    constructor
    · rintro ⟨a, b, c, d⟩
      exact ⟨a, by omega, c, d⟩
    · rintro ⟨a, b, c, d⟩
      exact ⟨a, by omega, c, d⟩
  · rw [hrw, paybackAux_none_char cfg mods idx 240 1 le_rfl]
    constructor
    · intro hall m h1 h2
      exact hall m h1 (by omega)
    · intro hall k h1 h2
      exact hall k h1 (by omega)

/-- A minimal configuration that pays its debt back in month 1. -/
def smallCfg : BusinessConfig := ⟨1, 0, 1, 1, 1, 0, 1⟩

/-- Witness for C7: the search for the small configuration returns month 1. -/
theorem C7_payback_characterization_witness :
    paybackSearch smallCfg AS_IS [1] = some 1 :=
  ((C7_payback_characterization smallCfg AS_IS [1]).1 1).mpr
    ⟨le_rfl, by norm_num,
      by norm_num [stateAfter, stepMonth, calculate_monthly_pnl,
        process_state, smallCfg, AS_IS],
      fun k hk1 hk2 => absurd (lt_of_le_of_lt hk1 hk2) (lt_irrefl 1)⟩

/-- C9: if the monthly profit is negative at every one of the 240
payback iterations and the capital is positive, the debt never moves,
so the search reports the "UNVIABLE" sentinel. -/
theorem C9_unviable (cfg : BusinessConfig) (mods : ScenarioModifiers)
    (idx : List ℚ) (hcap : 0 < cfg.capital)
    (hneg : ∀ m : ℕ, 1 ≤ m → m ≤ 240 →
      (calculate_monthly_pnl cfg mods (idx.getD ((m - 1) % 12) 0)).prof < 0) :
    paybackSearch cfg mods idx = none := by
  have hdebt : ∀ n : ℕ, n ≤ 240 →
      (stateAfter cfg mods idx n).debt = cfg.capital := by
    intro n
    induction n with
    | zero => intro _; rfl
    | succ k ih =>
      intro hk
      have hprof := hneg (k + 1) (by omega) hk
      have hrepay : (stepMonth cfg mods idx (k + 1)
          (stateAfter cfg mods idx k)).1 = 0 :=
        repay_eq_zero_of_not_eligible _ _ _ _
          (fun hcon => absurd hcon.1 (not_lt.mpr hprof.le))
      have hstep : (stateAfter cfg mods idx (k + 1)).debt =
          (stateAfter cfg mods idx k).debt -
            (stepMonth cfg mods idx (k + 1) (stateAfter cfg mods idx k)).1 :=
        stepMonth_debt cfg mods idx (k + 1) (stateAfter cfg mods idx k)
      rw [hstep, hrepay, sub_zero, ih (by omega)]
  have hrw : paybackSearch cfg mods idx =
      paybackAux cfg mods idx 240 1 (stateAfter cfg mods idx (1 - 1)) := rfl
  rw [hrw, paybackAux_none_char cfg mods idx 240 1 le_rfl]
  intro k hk1 hk2
  rw [hdebt k (by omega)]
  exact hcap

/-- A configuration with zero sales capacity: profit is `-4000` every
month, so the debt is never repaid. -/
def zeroCapacityCfg : BusinessConfig := ⟨20000, 4000, 0, 26, 89/10, 1/2, 1⟩

/-- Witness for C9 at the zero-capacity configuration. -/
theorem C9_unviable_witness :
    paybackSearch zeroCapacityCfg AS_IS exampleIdx = none :=
  C9_unviable zeroCapacityCfg AS_IS exampleIdx
    (by norm_num [zeroCapacityCfg])
    (fun m _ _ => by norm_num [calculate_monthly_pnl, zeroCapacityCfg, AS_IS])

/-- C8: the worked example of the spec: with the default configuration under
AS_IS and the January seasonal index 1.1, month 1 gives volume 2600
(clamped to capacity), revenue 23140 and profit 7570, and advancing the
fresh state (debt 20000, cash 0) repays 7570, leaving debt 12430 and
cash 0.00. -/
theorem C8_worked_example :
    (calculate_monthly_pnl exampleCfg AS_IS (11/10)).vol = 2600 ∧
    (calculate_monthly_pnl exampleCfg AS_IS (11/10)).rev = 23140 ∧
    (calculate_monthly_pnl exampleCfg AS_IS (11/10)).prof = 7570 ∧
    process_state 7570 0 20000 1 = (7570, 12430, 0) := by
  norm_num [calculate_monthly_pnl, process_state, exampleCfg, AS_IS,
    round2, roundHalfEven]

/-- C10: each history entry reports "Sales (Pax)" as the truncation
toward zero of the clamped volume while "Revenue" is computed from the
untruncated volume, so whenever the clamped volume is non-integral the
reported revenue differs from pax times `arpu_base`. -/
theorem C10_pax_truncation (cfg : BusinessConfig) (mods : ScenarioModifiers)
    (idx : List ℚ) (m : ℕ) (harpu : 0 < cfg.arpu_base) :
    (monthEntry cfg mods idx m).pax =
      truncQ (calculate_monthly_pnl cfg mods
        (idx.getD ((m - 1) % 12) 0)).vol ∧
    (monthEntry cfg mods idx m).revenue =
      (calculate_monthly_pnl cfg mods (idx.getD ((m - 1) % 12) 0)).vol *
        cfg.arpu_base ∧
    ((calculate_monthly_pnl cfg mods (idx.getD ((m - 1) % 12) 0)).vol ≠
        ((truncQ (calculate_monthly_pnl cfg mods
          (idx.getD ((m - 1) % 12) 0)).vol : ℤ) : ℚ) →
      (monthEntry cfg mods idx m).revenue ≠
        ((monthEntry cfg mods idx m).pax : ℚ) * cfg.arpu_base) := by
  refine ⟨rfl, rfl, ?_⟩
  intro hne heq
  exact hne (mul_right_cancel₀ (ne_of_gt harpu) heq)

/-- Witness for C10: with capacity 1 and seasonal index 1/2 the volume
is the non-integral 1/2, and the reported revenue differs from pax
times ARPU. -/
theorem C10_pax_truncation_witness :
    (monthEntry smallCfg AS_IS [1/2] 1).revenue ≠
      ((monthEntry smallCfg AS_IS [1/2] 1).pax : ℚ) * smallCfg.arpu_base :=
  (C10_pax_truncation smallCfg AS_IS [1/2] 1 (by norm_num [smallCfg])).2.2
    (by norm_num [calculate_monthly_pnl, truncQ, smallCfg, AS_IS])
